import Mathlib

/-!
Shallow embedding of the subprocess execution core of `cargo-mcp`
(`src/tools/cargo_utils.rs`): the `CommandSpec` builder
(`create_cargo_command`), the PTY wrapper (`wrap_command_for_pty`), the
timeout-bounded executor (`execute_cargo_command`) and the result
formatter (`format_command` and the inline report construction).

Rust `std::process::Command` is modelled as a `CommandSpec` record of
program, argument list and explicitly set environment overrides.  The
operating-system behaviour the executor interacts with (spawn success,
`try_wait` polling, elapsed-time checks, `wait`, and `read_to_end` on the
two pipes) is supplied by an `ExecEnv` oracle, and the executor records in
an `ExecTrace` which process-lifecycle actions it performed on each path.
-/

/- ### String primitives (list-based so that proofs and witnesses compute) -/

/-- Lower-casing of a single character, as Rust `str::to_lowercase` acts on
the ASCII range (the command lines matched by the PTY heuristic are ASCII). -/
def lowerChar (c : Char) : Char :=
  if c.toNat ≥ 65 ∧ c.toNat ≤ 90 then Char.ofNat (c.toNat + 32) else c

/-- Model of Rust `str::to_lowercase` (ASCII range). -/
def strLower (s : String) : String := String.mk (s.data.map lowerChar)

/-- Whether `pat` occurs as a contiguous run inside `l`. -/
def infixCheck (pat : List Char) : List Char → Bool
  | [] => pat.isEmpty
  | c :: rest => pat.isPrefixOf (c :: rest) || infixCheck pat rest

/-- Model of Rust `str::contains(pat)` for a string pattern. -/
def strContainsSub (s pat : String) : Bool := infixCheck pat.data s.data

/-- Model of Rust `str::is_empty`. -/
def strIsEmpty (s : String) : Bool := s.data.isEmpty

/-- Model of Rust `str::ends_with(c)` for a single character. -/
def endsWithChar (s : String) (c : Char) : Bool := s.data.getLast? == some c

/-- Model of Rust `Vec::<String>::join(" ")`. -/
def joinSpace : List String → String
  | [] => ""
  | [x] => x
  | x :: xs => x ++ " " ++ joinSpace xs

/- ### Data model -/

/-- Model of a configured `std::process::Command`: program, ordered
arguments, and the environment overrides explicitly set with `Command::env`
(the parent environment is inherited implicitly and is not part of the
record). -/
structure CommandSpec where
  program : String
  args : List String
  envs : List (String × String)
deriving DecidableEq, Repr

/- ### CommandSpec builder: `create_cargo_command` (cargo_utils.rs lines 12-36) -/

/-- Model of `create_cargo_command`: with a toolchain the program is
`rustup` with arguments `["run", toolchain, "cargo"] ++ cargo_args`,
otherwise the program is `cargo` with `cargo_args` unchanged; every pair of
the optional environment map is applied to the command with `Command::env`.
The `HashMap` is modelled as an association list of its pairs. -/
def create_cargo_command (cargo_args : List String) (toolchain : Option String)
    (env_vars : Option (List (String × String))) : CommandSpec :=
  let cmd : CommandSpec :=
    match toolchain with
    | some tc => { program := "rustup", args := ["run", tc, "cargo"] ++ cargo_args, envs := [] }
    | none => { program := "cargo", args := cargo_args, envs := [] }
  match env_vars with
  | some env_map => { cmd with envs := cmd.envs ++ env_map }
  | none => cmd

/- ### PTY wrapper: `wrap_command_for_pty` (cargo_utils.rs lines 40-69) -/

/-- Model of `wrap_command_for_pty`.  The file-system test
`project_path.join(".cargo/config.toml").exists()` is passed in as the
boolean `cargo_config_exists`.  On rewrite the whole `Command` is replaced
(`*cmd = Command::new("script")`), so the environment overrides of the
original command are discarded. -/
def wrap_command_for_pty (cmd : CommandSpec) (cargo_config_exists : Bool) : CommandSpec :=
  let program := cmd.program
  let args := joinSpace cmd.args
  let combined := program ++ " " ++ args
  let combined_lower := strLower combined
  let needs_pty := strContainsSub combined_lower "espflash"
    || strContainsSub combined_lower "flash"
    || strContainsSub combined_lower "monitor"
    || (strContainsSub combined_lower "cargo" && strContainsSub combined_lower "run")
  if needs_pty then
    if cargo_config_exists then
      { program := "script", args := ["-q", "-c", combined, "/dev/null"], envs := [] }
    else cmd
  else cmd

/- ### Permissive UTF-8 decoding: `String::from_utf8_lossy` -/

/-- Whether a byte is a UTF-8 continuation byte (`0x80..=0xBF`). -/
def isCont (b : Nat) : Bool := 0x80 ≤ b && b ≤ 0xBF

/-- Admissible first continuation byte of a three-byte sequence headed by
`b` (the restricted ranges for `0xE0` and `0xED` exclude overlong forms and
surrogates, as in Rust's UTF-8 validator). -/
def utf8Cont3Ok (b c1 : Nat) : Bool :=
  if b = 0xE0 then 0xA0 ≤ c1 && c1 ≤ 0xBF
  else if b = 0xED then 0x80 ≤ c1 && c1 ≤ 0x9F
  else isCont c1

/-- Admissible first continuation byte of a four-byte sequence headed by
`b` (the restricted ranges for `0xF0` and `0xF4` exclude overlong forms and
values above `U+10FFFF`). -/
def utf8Cont4Ok (b c1 : Nat) : Bool :=
  if b = 0xF0 then 0x90 ≤ c1 && c1 ≤ 0xBF
  else if b = 0xF4 then 0x80 ≤ c1 && c1 ≤ 0x8F
  else isCont c1

/-- The Unicode replacement character `U+FFFD`. -/
def replChar : Char := Char.ofNat 0xFFFD

/-- Model of `String::from_utf8_lossy`: decode a byte list to characters,
replacing each maximal invalid subpart by one `U+FFFD`, exactly as Rust's
`Utf8Chunks`-based lossy conversion does (resume at the first offending
byte; a well-formed prefix cut short by the end of input is one
replacement). -/
def utf8Lossy : List Nat → List Char
  | [] => []
  | b :: rest =>
    if b < 0x80 then Char.ofNat b :: utf8Lossy rest
    else if 0xC2 ≤ b && b ≤ 0xDF then
      match rest with
      | [] => [replChar]
      | c1 :: rest2 =>
        if isCont c1 then
          Char.ofNat ((b - 0xC0) * 64 + (c1 - 0x80)) :: utf8Lossy rest2
        else replChar :: utf8Lossy (c1 :: rest2)
    else if 0xE0 ≤ b && b ≤ 0xEF then
      match rest with
      | [] => [replChar]
      | c1 :: rest2 =>
        if utf8Cont3Ok b c1 then
          match rest2 with
          | [] => [replChar]
          | c2 :: rest3 =>
            if isCont c2 then
              Char.ofNat ((b - 0xE0) * 4096 + (c1 - 0x80) * 64 + (c2 - 0x80)) :: utf8Lossy rest3
            else replChar :: utf8Lossy (c2 :: rest3)
        else replChar :: utf8Lossy (c1 :: rest2)
    else if 0xF0 ≤ b && b ≤ 0xF4 then
      match rest with
      | [] => [replChar]
      | c1 :: rest2 =>
        if utf8Cont4Ok b c1 then
          match rest2 with
          | [] => [replChar]
          | c2 :: rest3 =>
            if isCont c2 then
              match rest3 with
              | [] => [replChar]
              | c3 :: rest4 =>
                if isCont c3 then
                  Char.ofNat ((b - 0xF0) * 262144 + (c1 - 0x80) * 4096
                      + (c2 - 0x80) * 64 + (c3 - 0x80)) :: utf8Lossy rest4
                else replChar :: utf8Lossy (c3 :: rest4)
            else replChar :: utf8Lossy (c2 :: rest3)
        else replChar :: utf8Lossy (c1 :: rest2)
    else replChar :: utf8Lossy rest

/-- Decoded text of a captured byte stream, as a `String`. -/
def lossyString (bytes : List Nat) : String := String.mk (utf8Lossy bytes)

/- ### Display formatting: `shell_escape` and `format_command` (cargo_utils.rs lines 171-193) -/

/-- Escaping of one character under Rust's `Debug` formatting of a string
(`format!("{arg:?}")`): the classic short escapes, `\u` escapes for other
control characters, a double quote escaped, a single quote left as is.
Faithful on the ASCII range; characters beyond ASCII are emitted verbatim
(the display strings this program escapes are command-line arguments). -/
def rustDebugEscapeChar (c : Char) : String :=
  if c = Char.ofNat 0 then "\\0"
  else if c = Char.ofNat 9 then "\\t"
  else if c = Char.ofNat 13 then "\\r"
  else if c = Char.ofNat 10 then "\\n"
  else if c = Char.ofNat 92 then "\\\\"
  else if c = Char.ofNat 34 then "\\\x22"
  else if c.toNat < 32 || c.toNat = 127 then
    "\\u\x7b" ++ String.mk (Nat.toDigits 16 c.toNat) ++ "\x7d"
  else String.mk [c]

/-- Rust `format!("{arg:?}")` on a string: the escaped characters between
double quotes. -/
def rustDebugFormat (arg : String) : String :=
  "\x22" ++ String.join (arg.data.map rustDebugEscapeChar) ++ "\x22"

/-- Model of `shell_escape`: quote-and-escape an argument for display when
it contains a space, a double quote, a single quote or a backslash,
otherwise return it unchanged. -/
def shell_escape (arg : String) : String :=
  if arg.data.contains ' ' || arg.data.contains (Char.ofNat 34)
      || arg.data.contains (Char.ofNat 39) || arg.data.contains (Char.ofNat 92) then
    rustDebugFormat arg
  else arg

/-- Model of `format_command`: the program followed by the space-joined
escaped arguments, or the program alone when the joined argument string is
empty. -/
def format_command (cmd : CommandSpec) : String :=
  let program := cmd.program
  let args := joinSpace (cmd.args.map shell_escape)
  if strIsEmpty args then program
  else program ++ " " ++ args

/- ### Report rendering (cargo_utils.rs lines 129-165) -/

/-- Model of the report construction of `execute_cargo_command` after both
streams are decoded: the sequence of `push_str` calls on `result`, verbatim
from the source.  `success` and `code` are `output.success()` and
`output.code()`; `stdout_str` and `stderr_str` are the lossily decoded
streams. -/
def formatResult (command_name : String) (project_path : String) (cmd : CommandSpec)
    (success : Bool) (code : Option Int) (stdout_str stderr_str : String) : String :=
  let result := "=== " ++ command_name ++ " ===\n"
  let result := result ++ ("📁 Working directory: " ++ project_path ++ "\n")
  let result := result ++ ("🔧 Command: " ++ format_command cmd ++ "\n\n")
  let result :=
    if success then result ++ "✅ Command completed successfully\n\n"
    else result ++ ("❌ Command failed with exit code: " ++ toString (code.getD (-1)) ++ "\n\n")
  let result :=
    if !strIsEmpty stdout_str then
      let result := result ++ "📤 STDOUT:\n"
      let result := result ++ stdout_str
      let result := if !endsWithChar stdout_str '\n' then result ++ "\n" else result
      result ++ "\n"
    else result
  let result :=
    if !strIsEmpty stderr_str then
      let result := result ++ "📤 STDERR:\n"
      let result := result ++ stderr_str
      let result := if !endsWithChar stderr_str '\n' then result ++ "\n" else result
      result ++ "\n"
    else result
  let result :=
    if strIsEmpty stdout_str && strIsEmpty stderr_str then
      result ++ "ℹ️  No output produced\n"
    else result
  result

/- ### Timeout-bounded executor: `execute_cargo_command` (cargo_utils.rs lines 72-168) -/

/-- Exit status of the child as the executor observes it:
`ExitStatus::success()` and `ExitStatus::code()` (`code = none` when the
process was terminated by a signal). -/
structure ChildExit where
  success : Bool
  code : Option Int
deriving DecidableEq, Repr

/-- Result of one `child.try_wait()` call inside the polling loop. -/
inductive TryWaitResult where
  | exited (st : ChildExit)
  | stillRunning
  | err (e : String)
deriving DecidableEq, Repr

/-- Oracle for the operating-system interactions of one invocation:
whether `spawn` succeeds, the result of the i-th `try_wait` poll, whether
`start.elapsed() > timeout` holds at the i-th poll, the result of the
blocking `child.wait()` on the no-timeout path, and the bytes (or error)
produced by `read_to_end` on each captured pipe. -/
structure ExecEnv where
  spawnErr : Option String
  tryWait : Nat → TryWaitResult
  elapsedExceeds : Nat → Bool
  blockingWait : Except String ChildExit
  readStdout : Except String (List Nat)
  readStderr : Except String (List Nat)

/-- Outcome of the wait phase of the executor. -/
inductive WaitOutcome where
  | exited (st : ChildExit)
  | timedOut (secs : Nat)
  | failed (e : String)
deriving DecidableEq, Repr

/-- The polling loop of `execute_cargo_command` (lines 91-109): the i-th
iteration calls `try_wait`; on `Ok(Some(status))` it breaks with the
status, on `Err` it breaks with the error, on `Ok(None)` it compares the
elapsed time against the timeout — exceeding it kills and reaps the child
and bails out — and otherwise sleeps 100 ms and polls again.  `fuel` bounds
the number of iterations modelled; `none` means the loop was still polling
after `fuel` iterations. -/
def waitLoop (env : ExecEnv) (timeout_secs : Nat) : Nat → Nat → Option WaitOutcome
  | 0, _ => none
  | fuel + 1, i =>
    match env.tryWait i with
    | .exited st => some (.exited st)
    | .err e => some (.failed e)
    | .stillRunning =>
      if env.elapsedExceeds i then some (.timedOut timeout_secs)
      else waitLoop env timeout_secs fuel (i + 1)

/-- The wait phase of `execute_cargo_command` (lines 88-112): with a
timeout, the polling loop; without one, a single blocking `child.wait()`. -/
def waitPhase (env : ExecEnv) (timeout_secs : Option Nat) (fuel : Nat) : Option WaitOutcome :=
  match timeout_secs with
  | some t => waitLoop env t fuel 0
  | none =>
    match env.blockingWait with
    | .ok st => some (.exited st)
    | .error e => some (.failed e)

/-- Process-lifecycle actions the executor performed before returning:
whether the child was spawned, whether `child.kill()` was issued, whether
the child was reaped (exit observed by `try_wait`/`wait`, or the final
`child.wait()` after a kill), and whether each pipe was read to
exhaustion. -/
structure ExecTrace where
  spawned : Bool
  killed : Bool
  reaped : Bool
  stdoutRead : Bool
  stderrRead : Bool
deriving DecidableEq, Repr

deriving instance DecidableEq for Except

/-- Value and trace of one invocation of the executor. -/
structure ExecResult where
  result : Except String String
  trace : ExecTrace
deriving DecidableEq, Repr

/-- Model of `execute_cargo_command`.  A failed spawn returns the error at
once (line 84).  With the wait phase done: a timeout bails out with the
message naming the configured seconds, after `kill` and a final reaping
`wait` (lines 96-104); a failed poll or failed blocking wait propagates the
error (lines 107, 111-112) with the child neither killed nor reaped; an
observed exit reads both pipes to exhaustion — an error while reading
propagates (lines 120, 124) — decodes them lossily and renders the report
(lines 126-167).  `none` means the polling loop exceeded `fuel`. -/
def execute_cargo_command (cmd : CommandSpec) (project_path : String)
    (command_name : String) (timeout_secs : Option Nat) (env : ExecEnv)
    (fuel : Nat) : Option ExecResult :=
  match env.spawnErr with
  | some e =>
    some { result := .error e,
           trace := { spawned := false, killed := false, reaped := false,
                      stdoutRead := false, stderrRead := false } }
  | none =>
    match waitPhase env timeout_secs fuel with
    | none => none
    | some (.timedOut t) =>
      some { result := .error ("❌ Command timed out after " ++ toString t ++ " seconds\n"),
             trace := { spawned := true, killed := true, reaped := true,
                        stdoutRead := false, stderrRead := false } }
    | some (.failed e) =>
      some { result := .error e,
             trace := { spawned := true, killed := false, reaped := false,
                        stdoutRead := false, stderrRead := false } }
    | some (.exited st) =>
      match env.readStdout with
      | .error e =>
        some { result := .error e,
               trace := { spawned := true, killed := false, reaped := true,
                          stdoutRead := false, stderrRead := false } }
      | .ok stdout_bytes =>
        match env.readStderr with
        | .error e =>
          some { result := .error e,
                 trace := { spawned := true, killed := false, reaped := true,
                            stdoutRead := true, stderrRead := false } }
        | .ok stderr_bytes =>
          some { result := .ok (formatResult command_name project_path cmd
                    st.success st.code (lossyString stdout_bytes) (lossyString stderr_bytes)),
                 trace := { spawned := true, killed := false, reaped := true,
                            stdoutRead := true, stderrRead := true } }

/- ### Specification-side characterization of the PTY wrapper -/

/-- Specified from the heuristic: the lower-cased reconstructed command
line contains one of the trigger substrings, or both the base-tool
indicator and the run indicator. -/
def pty_trigger (cmd : CommandSpec) : Bool :=
  let line := strLower (cmd.program ++ " " ++ joinSpace cmd.args)
  strContainsSub line "espflash" || strContainsSub line "flash"
    || strContainsSub line "monitor"
    || (strContainsSub line "cargo" && strContainsSub line "run")

/-- Specified from the wrapper invocation shape: the terminal wrapper with
the fixed flags, the original reconstructed line as one argument, and the
null sink. -/
def pty_wrapped (cmd : CommandSpec) : CommandSpec :=
  { program := "script",
    args := ["-q", "-c", cmd.program ++ " " ++ joinSpace cmd.args, "/dev/null"],
    envs := [] }

/- ### Concrete invocations used to exercise the claims -/

/-- A plain build command. -/
def specBuild : CommandSpec := { program := "cargo", args := ["build"], envs := [] }

/-- A run command carrying one environment override. -/
def specRunWithEnv : CommandSpec :=
  { program := "cargo", args := ["run"], envs := [("RUSTFLAGS", "-Copt")] }

/-- A child that never exits and whose elapsed time exceeds the timeout
from the second poll on. -/
def envTimeoutC1 : ExecEnv :=
  { spawnErr := none, tryWait := fun _ => .stillRunning,
    elapsedExceeds := fun i => decide (1 ≤ i),
    blockingWait := .ok { success := true, code := some 0 },
    readStdout := .ok [104, 105], readStderr := .ok [] }

/-- A child that never exits, over the timeout at once, with bytes pending
on both pipes. -/
def envTimeoutC3 : ExecEnv :=
  { spawnErr := none, tryWait := fun _ => .stillRunning,
    elapsedExceeds := fun _ => true,
    blockingWait := .ok { success := true, code := some 0 },
    readStdout := .ok [111, 107], readStderr := .ok [33] }

/-- A child whose exit is observed by the first poll, with output on
stdout. -/
def envExitC3 : ExecEnv :=
  { spawnErr := none, tryWait := fun _ => .exited { success := true, code := some 0 },
    elapsedExceeds := fun _ => false,
    blockingWait := .ok { success := true, code := some 0 },
    readStdout := .ok [111, 107, 10], readStderr := .ok [] }

/-- A child that exits with code 101 and writes only to stderr, observed by
the blocking wait. -/
def envExitC6 : ExecEnv :=
  { spawnErr := none, tryWait := fun _ => .stillRunning,
    elapsedExceeds := fun _ => false,
    blockingWait := .ok { success := false, code := some 101 },
    readStdout := .ok [], readStderr := .ok [101, 114, 114, 10] }

/-- An invocation whose first poll itself fails. -/
def envPollErrC7 : ExecEnv :=
  { spawnErr := none, tryWait := fun _ => .err "waitpid failed",
    elapsedExceeds := fun _ => false,
    blockingWait := .error "wait failed",
    readStdout := .ok [], readStderr := .ok [] }

/-- A child whose exit is observed by the first poll. -/
def envExitC7 : ExecEnv :=
  { spawnErr := none, tryWait := fun _ => .exited { success := true, code := some 0 },
    elapsedExceeds := fun _ => false,
    blockingWait := .ok { success := true, code := some 0 },
    readStdout := .ok [], readStderr := .ok [] }

/-- A child that exits with code 2 at the second poll of a timed
invocation. -/
def envPollExitC9 : ExecEnv :=
  { spawnErr := none,
    tryWait := fun i => if i = 0 then .stillRunning else .exited { success := false, code := some 2 },
    elapsedExceeds := fun _ => false,
    blockingWait := .error "unused",
    readStdout := .ok [65, 10], readStderr := .ok [] }

/-- The same observed outcome reached by a blocking wait instead. -/
def envWaitExitC9 : ExecEnv :=
  { spawnErr := none, tryWait := fun _ => .stillRunning,
    elapsedExceeds := fun _ => false,
    blockingWait := .ok { success := false, code := some 2 },
    readStdout := .ok [65, 10], readStderr := .ok [] }

/- ### Specification-side decomposition of the rendered report -/

/-- Specified from the report layout: the header of the report — operation
name, working directory, reconstructed command line, and the
success/failure status line. -/
def renderHeader (command_name project_path : String) (cmd : CommandSpec)
    (success : Bool) (code : Option Int) : String :=
  "=== " ++ command_name ++ " ===\n"
  ++ ("📁 Working directory: " ++ project_path ++ "\n")
  ++ ("🔧 Command: " ++ format_command cmd ++ "\n\n")
  ++ (if success then "✅ Command completed successfully\n\n"
      else "❌ Command failed with exit code: " ++ toString (code.getD (-1)) ++ "\n\n")

/-- Specified from the report layout: a labelled stream block — label, the
stream text, a newline unless the text already ends with one, and the
guaranteed trailing newline. -/
def renderStreamBlock (label content : String) : String :=
  label ++ content ++ (if !endsWithChar content '\n' then "\n" else "") ++ "\n"

/-- Two strings with the same character data are equal. -/
theorem strDataEq {a b : String} (h : a.data = b.data) : a = b := by
  cases a; cases b; cases h; rfl

/-- Character data of an appended string. -/
theorem strDataAppend (a b : String) : (a ++ b).data = a.data ++ b.data := by
  cases a; cases b; rfl

/-- The imperative report construction equals the specified decomposition
into header, conditional stream blocks, and conditional no-output notice. -/
theorem formatResult_decomp (n p : String) (cmd : CommandSpec) (success : Bool)
    (code : Option Int) (so se : String) :
    formatResult n p cmd success code so se
      = renderHeader n p cmd success code
        ++ (if strIsEmpty so then "" else renderStreamBlock "📤 STDOUT:\n" so)
        ++ (if strIsEmpty se then "" else renderStreamBlock "📤 STDERR:\n" se)
        ++ (if strIsEmpty so && strIsEmpty se then "ℹ️  No output produced\n" else "") := by
  apply strDataEq
  unfold formatResult renderHeader renderStreamBlock
  cases success <;> cases hso : strIsEmpty so <;> cases hse : strIsEmpty se <;>
    cases hs1 : endsWithChar so '\n' <;> cases hs2 : endsWithChar se '\n' <;>
      simp [hso, hse, hs1, hs2, strDataAppend, List.append_assoc]

/-- Every stream block ends in a newline. -/
theorem renderStreamBlock_trailing (label content : String) :
    ∃ t, renderStreamBlock label content = t ++ "\n" :=
  ⟨label ++ (content ++ (if !endsWithChar content '\n' then "\n" else "")), by
    simp [renderStreamBlock, String.append_assoc]⟩

/- ### Executor path lemmas -/

/-- On an observed exit with both reads succeeding, the executor renders
the report from the lossily decoded full byte streams, the child is reaped
and both pipes were read. -/
theorem execute_exited (cmd : CommandSpec) (p n : String) (t : Option Nat)
    (env : ExecEnv) (fuel : Nat) (st : ChildExit) (ob eb : List Nat)
    (h1 : env.spawnErr = none) (h2 : waitPhase env t fuel = some (.exited st))
    (h3 : env.readStdout = .ok ob) (h4 : env.readStderr = .ok eb) :
    execute_cargo_command cmd p n t env fuel
      = some { result := .ok (formatResult n p cmd st.success st.code
                  (lossyString ob) (lossyString eb)),
               trace := { spawned := true, killed := false, reaped := true,
                          stdoutRead := true, stderrRead := true } } := by
  unfold execute_cargo_command
  rw [h1, h2, h3, h4]

/-- On an exceeded timeout, the executor kills and reaps the child and
bails out with the message naming the configured seconds, without reading
either pipe. -/
theorem execute_timedOut (cmd : CommandSpec) (p n : String) (t : Nat)
    (env : ExecEnv) (fuel : Nat)
    (h1 : env.spawnErr = none) (h2 : waitPhase env (some t) fuel = some (.timedOut t)) :
    execute_cargo_command cmd p n (some t) env fuel
      = some { result := .error ("❌ Command timed out after " ++ toString t ++ " seconds\n"),
               trace := { spawned := true, killed := true, reaped := true,
                          stdoutRead := false, stderrRead := false } } := by
  unfold execute_cargo_command
  rw [h1, h2]

/- ### Claims -/

/-- C4: for every call to the builder, a present toolchain routes through
`rustup` with arguments `["run", toolchain, "cargo"]` followed by the base
arguments unchanged, and an absent toolchain yields `cargo` with the input
arguments unchanged. -/
theorem c4_builder_toolchain_dispatch (cargo_args : List String) (tc : String)
    (env_vars : Option (List (String × String))) :
    ((create_cargo_command cargo_args (some tc) env_vars).program = "rustup"
      ∧ (create_cargo_command cargo_args (some tc) env_vars).args
          = ["run", tc, "cargo"] ++ cargo_args)
    ∧ ((create_cargo_command cargo_args none env_vars).program = "cargo"
      ∧ (create_cargo_command cargo_args none env_vars).args = cargo_args) := by
  cases env_vars <;> simp [create_cargo_command]

/-- C10: a present but empty toolchain string still routes through
`rustup`, with the empty string spliced in as the toolchain argument —
presence alone is tested, with no validation or fallback. -/
theorem c10_empty_toolchain_still_dispatches (cargo_args : List String)
    (env_vars : Option (List (String × String))) :
    (create_cargo_command cargo_args (some "") env_vars).program = "rustup"
    ∧ (create_cargo_command cargo_args (some "") env_vars).args
        = ["run", "", "cargo"] ++ cargo_args := by
  cases env_vars <;> simp [create_cargo_command]

/-- C5: the wrapper replaces the spec exactly when the lower-cased
reconstructed line matches the trigger condition and the marker file
exists, the replacement running the original line under `script -q -c
<line> /dev/null`; otherwise the spec is unchanged. -/
theorem c5_wrap_characterization (cmd : CommandSpec) (cargo_config_exists : Bool) :
    wrap_command_for_pty cmd cargo_config_exists
      = if pty_trigger cmd && cargo_config_exists then pty_wrapped cmd else cmd := by
  cases cargo_config_exists <;>
    simp [wrap_command_for_pty, pty_trigger, pty_wrapped]

/-- C8: a labelled stdout block appears iff the decoded stdout is
non-empty, a labelled stderr block iff the decoded stderr is non-empty,
the explicit no-output notice iff both are empty, and every stream block
that appears ends with a trailing newline. -/
theorem c8_blocks_iff_nonempty (n p : String) (cmd : CommandSpec) (success : Bool)
    (code : Option Int) (stdout_str stderr_str : String) :
    (formatResult n p cmd success code stdout_str stderr_str
      = renderHeader n p cmd success code
        ++ (if strIsEmpty stdout_str then "" else renderStreamBlock "📤 STDOUT:\n" stdout_str)
        ++ (if strIsEmpty stderr_str then "" else renderStreamBlock "📤 STDERR:\n" stderr_str)
        ++ (if strIsEmpty stdout_str && strIsEmpty stderr_str then "ℹ️  No output produced\n"
            else ""))
    ∧ (∀ label content, ∃ t, renderStreamBlock label content = t ++ "\n") :=
  ⟨formatResult_decomp n p cmd success code stdout_str stderr_str,
   fun label content => renderStreamBlock_trailing label content⟩

/-- C9: rendering is a pure deterministic function of the outcome, the
spec and the label: two invocations with the same observed exit status and
the same captured bytes return identical results, and rendering a fixed
outcome twice yields byte-identical text. -/
theorem c9_render_deterministic (cmd : CommandSpec) (p n : String)
    (t1 t2 : Option Nat) (env1 env2 : ExecEnv) (fuel1 fuel2 : Nat)
    (st : ChildExit) (ob eb : List Nat)
    (h1 : env1.spawnErr = none) (h2 : env2.spawnErr = none)
    (h3 : waitPhase env1 t1 fuel1 = some (.exited st))
    (h4 : waitPhase env2 t2 fuel2 = some (.exited st))
    (h5 : env1.readStdout = .ok ob) (h6 : env2.readStdout = .ok ob)
    (h7 : env1.readStderr = .ok eb) (h8 : env2.readStderr = .ok eb) :
    execute_cargo_command cmd p n t1 env1 fuel1 = execute_cargo_command cmd p n t2 env2 fuel2
    ∧ formatResult n p cmd st.success st.code (lossyString ob) (lossyString eb)
      = formatResult n p cmd st.success st.code (lossyString ob) (lossyString eb) := by
  refine ⟨?_, rfl⟩
  rw [execute_exited cmd p n t1 env1 fuel1 st ob eb h1 h3 h5 h7,
    execute_exited cmd p n t2 env2 fuel2 st ob eb h2 h4 h6 h8]

/-- Witness for C9: one invocation observes the exit at its second poll
under a timeout, the other by a blocking wait with no timeout; results
agree and the render is byte-identical. -/
theorem c9_witness :
    execute_cargo_command specBuild "/p" "cargo build" (some 7) envPollExitC9 3
      = execute_cargo_command specBuild "/p" "cargo build" none envWaitExitC9 1
    ∧ formatResult "cargo build" "/p" specBuild false (some 2)
        (lossyString [65, 10]) (lossyString [])
      = formatResult "cargo build" "/p" specBuild false (some 2)
        (lossyString [65, 10]) (lossyString []) :=
  c9_render_deterministic specBuild "/p" "cargo build" (some 7) none envPollExitC9
    envWaitExitC9 3 1 { success := false, code := some 2 } [65, 10] []
    rfl rfl rfl rfl rfl rfl rfl rfl

/-- C1 (amended): when the child exceeds a supplied timeout, the executor
kills the child, reaps it with a final wait, and aborts the invocation
with an error whose text states the configured timeout value; no report is
rendered and neither pipe is read. -/
theorem c1_timeout_aborts_with_error (cmd : CommandSpec) (p n : String) (t : Nat)
    (env : ExecEnv) (fuel : Nat)
    (h1 : env.spawnErr = none)
    (h2 : waitPhase env (some t) fuel = some (.timedOut t)) :
    execute_cargo_command cmd p n (some t) env fuel
      = some { result := .error ("❌ Command timed out after " ++ toString t ++ " seconds\n"),
               trace := { spawned := true, killed := true, reaped := true,
                          stdoutRead := false, stderrRead := false } } :=
  execute_timedOut cmd p n t env fuel h1 h2

/-- Counterexample to C1 as stated: at this concrete timed-out invocation
the executor aborts with an error — the timeout is not folded into an `Ok`
rendered report, and no outcome record is produced. -/
theorem c1_counterexample_error_not_report :
    execute_cargo_command specBuild "/proj" "cargo build" (some 5) envTimeoutC1 3
      = some { result := .error "❌ Command timed out after 5 seconds\n",
               trace := { spawned := true, killed := true, reaped := true,
                          stdoutRead := false, stderrRead := false } } := rfl

/-- Witness for C1 at a concrete timed-out invocation. -/
theorem c1_witness :
    execute_cargo_command specBuild "/proj" "cargo build" (some 5) envTimeoutC1 2
      = some { result := .error ("❌ Command timed out after " ++ toString 5 ++ " seconds\n"),
               trace := { spawned := true, killed := true, reaped := true,
                          stdoutRead := false, stderrRead := false } } :=
  c1_timeout_aborts_with_error specBuild "/proj" "cargo build" 5 envTimeoutC1 2 rfl rfl

/-- C2 (amended): every pair of the caller-supplied map is attached to the
built command verbatim with no validation of variable names, but on an
invocation the PTY wrapper rewrites, the replacement command's override
list is empty — the overrides are discarded rather than carried over. -/
theorem c2_env_overrides_passthrough (cargo_args : List String) (toolchain : Option String)
    (env_map : List (String × String)) (kv : String × String)
    (cmd : CommandSpec) (b : Bool)
    (hmem : kv ∈ env_map) :
    kv ∈ (create_cargo_command cargo_args toolchain (some env_map)).envs
    ∧ (wrap_command_for_pty cmd b).envs
        = (if pty_trigger cmd && b then [] else cmd.envs) := by
  constructor
  · cases toolchain <;> simpa [create_cargo_command] using hmem
  · cases b <;> simp [wrap_command_for_pty, pty_trigger]
    split <;> rfl

/-- Counterexample to C2 as stated: the override pair supplied to the
builder is absent from the command after the PTY rewrite. -/
theorem c2_counterexample_wrap_discards_overrides :
    (wrap_command_for_pty (create_cargo_command ["run"] none
        (some [("RUSTFLAGS", "-Copt")])) true).envs = []
    ∧ ("RUSTFLAGS", "-Copt") ∉ (wrap_command_for_pty (create_cargo_command ["run"] none
        (some [("RUSTFLAGS", "-Copt")])) true).envs := by decide

/-- Witness for C2 at a concrete map, pair and rewritten command. -/
theorem c2_witness :
    ("RUSTFLAGS", "-Copt") ∈ (create_cargo_command ["build"] (some "stable")
        (some [("RUSTFLAGS", "-Copt")])).envs
    ∧ (wrap_command_for_pty specRunWithEnv true).envs
        = (if pty_trigger specRunWithEnv && true then []
           else specRunWithEnv.envs) :=
  c2_env_overrides_passthrough ["build"] (some "stable") [("RUSTFLAGS", "-Copt")]
    ("RUSTFLAGS", "-Copt") specRunWithEnv true (by decide)

/-- C3 (amended): on an exit observed by the wait phase with both reads
succeeding, both pipes are read to exhaustion and decoded permissively
(replacement, never failing) before the outcome is complete; but on forced
termination after a timeout the invocation aborts with an error without
reading either pipe. -/
theorem c3_reads_exhaustive_only_on_observed_exit (cmd : CommandSpec) (p n : String)
    (env : ExecEnv) (fuel : Nat) :
    (∀ t st ob eb, env.spawnErr = none → waitPhase env t fuel = some (.exited st) →
        env.readStdout = .ok ob → env.readStderr = .ok eb →
        execute_cargo_command cmd p n t env fuel
          = some { result := .ok (formatResult n p cmd st.success st.code
                      (lossyString ob) (lossyString eb)),
                   trace := { spawned := true, killed := false, reaped := true,
                              stdoutRead := true, stderrRead := true } })
    ∧ (∀ t, env.spawnErr = none → waitPhase env (some t) fuel = some (.timedOut t) →
        execute_cargo_command cmd p n (some t) env fuel
          = some { result := .error ("❌ Command timed out after " ++ toString t
                      ++ " seconds\n"),
                   trace := { spawned := true, killed := true, reaped := true,
                              stdoutRead := false, stderrRead := false } }) :=
  ⟨fun t st ob eb h1 h2 h3 h4 => execute_exited cmd p n t env fuel st ob eb h1 h2 h3 h4,
   fun t h1 h2 => execute_timedOut cmd p n t env fuel h1 h2⟩

/-- Counterexample to C3 as stated: after forced termination the executor
returns without reading either pipe, although bytes were pending on both. -/
theorem c3_counterexample_timeout_skips_reads :
    execute_cargo_command specBuild "/p" "cargo fix" (some 1) envTimeoutC3 1
      = some { result := .error "❌ Command timed out after 1 seconds\n",
               trace := { spawned := true, killed := true, reaped := true,
                          stdoutRead := false, stderrRead := false } } := rfl

/-- Witness for C3 at one observed-exit invocation and one timed-out
invocation. -/
theorem c3_witness :
    execute_cargo_command specBuild "/p" "cargo doc" none envExitC3 1
      = some { result := .ok (formatResult "cargo doc" "/p" specBuild true (some 0)
                  (lossyString [111, 107, 10]) (lossyString [])),
               trace := { spawned := true, killed := false, reaped := true,
                          stdoutRead := true, stderrRead := true } }
    ∧ execute_cargo_command specBuild "/p" "cargo doc" (some 2) envTimeoutC3 1
      = some { result := .error ("❌ Command timed out after " ++ toString 2
                  ++ " seconds\n"),
               trace := { spawned := true, killed := true, reaped := true,
                          stdoutRead := false, stderrRead := false } } :=
  ⟨(c3_reads_exhaustive_only_on_observed_exit specBuild "/p" "cargo doc" envExitC3 1).1
      none { success := true, code := some 0 } [111, 107, 10] [] rfl rfl rfl rfl,
   (c3_reads_exhaustive_only_on_observed_exit specBuild "/p" "cargo doc" envTimeoutC3 1).2
      2 rfl rfl⟩

/-- The failing report decomposes into a header part, the failure status
line naming the exit code, and the stream blocks. -/
theorem formatResult_fail_decomp (n p : String) (cmd : CommandSpec) (c : Int)
    (so se : String) :
    formatResult n p cmd false (some c) so se
      = ("=== " ++ n ++ " ===\n" ++ ("📁 Working directory: " ++ p ++ "\n")
          ++ ("🔧 Command: " ++ format_command cmd ++ "\n\n"))
        ++ ("❌ Command failed with exit code: " ++ toString c ++ "\n\n")
        ++ ((if strIsEmpty so then "" else renderStreamBlock "📤 STDOUT:\n" so)
          ++ (if strIsEmpty se then "" else renderStreamBlock "📤 STDERR:\n" se)
          ++ (if strIsEmpty so && strIsEmpty se then "ℹ️  No output produced\n" else "")) := by
  apply strDataEq
  rw [formatResult_decomp]
  unfold renderHeader
  simp [strDataAppend, List.append_assoc]

/-- C6: an invocation whose child spawns, completes within any supplied
timeout, and exits non-zero is not a system error: the executor returns
`Ok` with a rendered report whose status line states failure and names the
exit code. -/
theorem c6_nonzero_exit_rendered_not_error (cmd : CommandSpec) (p n : String)
    (t : Option Nat) (env : ExecEnv) (fuel : Nat) (c : Int) (ob eb : List Nat)
    (h1 : env.spawnErr = none)
    (h2 : waitPhase env t fuel = some (.exited { success := false, code := some c }))
    (h3 : env.readStdout = .ok ob) (h4 : env.readStderr = .ok eb) :
    ∃ hdr rest,
      execute_cargo_command cmd p n t env fuel
        = some { result := .ok (hdr ++ ("❌ Command failed with exit code: "
                    ++ toString c ++ "\n\n") ++ rest),
                 trace := { spawned := true, killed := false, reaped := true,
                            stdoutRead := true, stderrRead := true } } := by
  refine ⟨"=== " ++ n ++ " ===\n" ++ ("📁 Working directory: " ++ p ++ "\n")
      ++ ("🔧 Command: " ++ format_command cmd ++ "\n\n"),
    (if strIsEmpty (lossyString ob) then ""
      else renderStreamBlock "📤 STDOUT:\n" (lossyString ob))
      ++ (if strIsEmpty (lossyString eb) then ""
        else renderStreamBlock "📤 STDERR:\n" (lossyString eb))
      ++ (if strIsEmpty (lossyString ob) && strIsEmpty (lossyString eb)
        then "ℹ️  No output produced\n" else ""), ?_⟩
  rw [execute_exited cmd p n t env fuel { success := false, code := some c } ob eb h1 h2 h3 h4,
    formatResult_fail_decomp]

/-- Witness for C6 at a child exiting with code 101 under no timeout. -/
theorem c6_witness :
    ∃ hdr rest,
      execute_cargo_command specBuild "/p" "cargo build" none envExitC6 1
        = some { result := .ok (hdr ++ ("❌ Command failed with exit code: "
                    ++ toString (101 : Int) ++ "\n\n") ++ rest),
                 trace := { spawned := true, killed := false, reaped := true,
                            stdoutRead := true, stderrRead := true } } :=
  c6_nonzero_exit_rendered_not_error specBuild "/p" "cargo build" none envExitC6 1 101
    [] [101, 114, 114, 10] rfl rfl rfl rfl

/-- C7 (amended): on the enumerated exit paths — exit observed by a poll
or by the blocking wait, or forced termination after the timeout — the
invocation completes with the child reaped before it returns; a failing
poll or failing blocking wait, however, propagates its error without
reaping. -/
theorem c7_reaped_on_enumerated_paths (cmd : CommandSpec) (p n : String)
    (t : Option Nat) (env : ExecEnv) (fuel : Nat) (w : WaitOutcome)
    (h1 : env.spawnErr = none)
    (h2 : waitPhase env t fuel = some w)
    (h3 : ∀ e, w ≠ .failed e) :
    ∃ r, execute_cargo_command cmd p n t env fuel = some r ∧ r.trace.reaped = true := by
  cases w with
  | failed e => exact absurd rfl (h3 e)
  | timedOut s =>
    refine ⟨{ result := .error ("❌ Command timed out after " ++ toString s ++ " seconds\n"),
              trace := { spawned := true, killed := true, reaped := true,
                         stdoutRead := false, stderrRead := false } }, ?_, rfl⟩
    unfold execute_cargo_command
    rw [h1, h2]
  | exited st =>
    cases h5 : env.readStdout with
    | error e =>
      refine ⟨{ result := .error e,
                trace := { spawned := true, killed := false, reaped := true,
                           stdoutRead := false, stderrRead := false } }, ?_, rfl⟩
      unfold execute_cargo_command
      rw [h1, h2, h5]
    | ok ob =>
      cases h6 : env.readStderr with
      | error e =>
        refine ⟨{ result := .error e,
                  trace := { spawned := true, killed := false, reaped := true,
                             stdoutRead := true, stderrRead := false } }, ?_, rfl⟩
        unfold execute_cargo_command
        rw [h1, h2, h5, h6]
      | ok eb =>
        refine ⟨{ result := .ok (formatResult n p cmd st.success st.code
                    (lossyString ob) (lossyString eb)),
                  trace := { spawned := true, killed := false, reaped := true,
                             stdoutRead := true, stderrRead := true } }, ?_, rfl⟩
        unfold execute_cargo_command
        rw [h1, h2, h5, h6]

/-- Counterexample to C7 as stated: a failing first poll makes the
invocation return an error with the child neither killed nor reaped. -/
theorem c7_counterexample_poll_failure_leaks_child :
    execute_cargo_command specBuild "/p" "cargo tree" (some 9) envPollErrC7 1
      = some { result := .error "waitpid failed",
               trace := { spawned := true, killed := false, reaped := false,
                          stdoutRead := false, stderrRead := false } } := rfl

/-- Witness for C7 at an exit observed by the first poll. -/
theorem c7_witness :
    ∃ r, execute_cargo_command specBuild "/p" "cargo tree" (some 9) envExitC7 1 = some r
      ∧ r.trace.reaped = true :=
  c7_reaped_on_enumerated_paths specBuild "/p" "cargo tree" (some 9) envExitC7 1
    (.exited { success := true, code := some 0 }) rfl rfl
    (fun _ h => WaitOutcome.noConfusion h)
